import Mathlib

/-!
Shallow embedding of the event-sourced trading core of the repository
(`nautilus_trader`), covering the parts exercised by the verified claims:

* `Position` and its fill-application logic
  (`src/nautilus_trader/model/position.pyx`, class `Position`);
* `BarBuilder` and the volume/time bar aggregators
  (`src/nautilus_trader/model/position.pyx`, second compilation unit);
* the simulated L1 order book
  (`src/nautilus_trader/model/orderbook/simulated.pyx`);
* the stop-limit order update hook
  (`src/nautilus_trader/model/orders/stop_limit.pyx`).

Python `Decimal` / `Price` / `Quantity` / `double` values are modelled as
exact rationals (`ℚ`); `int64` timestamps as `Int`; Python `dict` state as
ordered association lists with first-match lookup.  Methods that mutate an
aggregate are modelled as functions from the old state to the new state;
methods that can raise return `Except String`.
-/

/-- Currency codes, compared by code string as in the source. -/
abbrev Currency := String

/-- `Money` value: a decimal amount in a currency (`model/objects.pyx`,
modelled by its `(amount, currency)` observable state; in the 2021 source
arithmetic between `Money` values operates on the decimal amounts). -/
structure Money where
  amount : ℚ
  currency : Currency
deriving DecidableEq, Repr

/-- `OrderSide` enum (`model/c_enums/order_side`). -/
inductive OrderSide where
  | buy
  | sell
deriving DecidableEq, Repr

/-- `PositionSide` enum (`model/c_enums/position_side`). -/
inductive PositionSide where
  | flat
  | long
  | short
deriving DecidableEq, Repr

/-- `AggressorSide` enum (`model/c_enums/aggressor_side`). -/
inductive AggressorSide where
  | buy
  | sell
deriving DecidableEq, Repr

/-- The instrument fields consumed by `Position.__init__`
(`model/instruments/base`). -/
structure Instrument where
  id : String
  pricePrecision : Nat
  sizePrecision : Nat
  multiplier : ℚ
  isInverse : Bool
  quoteCurrency : Currency
  baseCurrency : Option Currency
deriving DecidableEq, Repr

/-- `Instrument.get_cost_currency()`: base currency for inverse
instruments, quote currency otherwise (spec §3 Data model; the instrument
class itself is outside the staged files, this accessor is modelled from
the spec sentence defining `cost_currency`). -/
def Instrument.getCostCurrency (inst : Instrument) : Currency :=
  if inst.isInverse then inst.baseCurrency.getD inst.quoteCurrency else inst.quoteCurrency

/-- The `OrderFilled` event fields consumed by `Position`
(`model/events/order`). -/
structure OrderFilled where
  traderId : String
  strategyId : String
  instrumentId : String
  positionId : String
  accountId : String
  clientOrderId : String
  executionId : String
  orderSide : OrderSide
  lastQty : ℚ
  lastPx : ℚ
  commission : Money
  tsEvent : Int
  tsInit : Int
deriving DecidableEq, Repr

/-- First-match lookup in an association list, defaulting to `0`:
`self._commissions.get(currency, Decimal(0))`. -/
def dictGet : List (Currency × ℚ) → Currency → ℚ
  | [], _ => 0
  | (k, v) :: rest, c => if k = c then v else dictGet rest c

/-- In-place update of an association list: replace the first binding of
the key, else append — Python `dict` assignment `self._commissions[k] = v`. -/
def dictSet : List (Currency × ℚ) → Currency → ℚ → List (Currency × ℚ)
  | [], c, v => [(c, v)]
  | (k, w) :: rest, c, v => if k = c then (c, v) :: rest else (k, w) :: dictSet rest c v

/-- Python `abs` on a decimal, written as an explicit conditional. -/
def ratAbs (x : ℚ) : ℚ :=
  if x < 0 then -x else x

/-- `Position` aggregate state (`model/position.pyx`, class `Position`). -/
structure Position where
  events : List OrderFilled
  executionIds : List String
  buyQty : ℚ
  sellQty : ℚ
  commissions : List (Currency × ℚ)
  traderId : String
  strategyId : String
  instrumentId : String
  id : String
  accountId : String
  fromOrder : String
  entry : OrderSide
  side : PositionSide
  netQty : ℚ
  quantity : ℚ
  peakQty : ℚ
  tsInit : Int
  tsOpened : Int
  tsLast : Int
  tsClosed : Int
  durationNs : Int
  avgPxOpen : ℚ
  avgPxClose : Option ℚ
  pricePrecision : Nat
  sizePrecision : Nat
  multiplier : ℚ
  isInverse : Bool
  quoteCurrency : Currency
  baseCurrency : Option Currency
  costCurrency : Currency
  realizedPoints : ℚ
  realizedReturn : ℚ
  realizedPnl : Money
deriving DecidableEq, Repr

namespace Position

/-- `Position.side_from_order_side` (restricted to the two valid sides). -/
def sideFromOrderSide : OrderSide → PositionSide
  | .buy => .long
  | .sell => .short

/-- `Position._calculate_points`: raw price difference signed by the
current position side. -/
def calculatePoints (p : Position) (avgPxOpen avgPxClose : ℚ) : ℚ :=
  match p.side with
  | .long => avgPxClose - avgPxOpen
  | .short => avgPxOpen - avgPxClose
  | .flat => 0

/-- `Position._calculate_points_inverse`: `1/price`-linear points for
inverse instruments. -/
def calculatePointsInverse (p : Position) (avgPxOpen avgPxClose : ℚ) : ℚ :=
  match p.side with
  | .long => 1 / avgPxOpen - 1 / avgPxClose
  | .short => 1 / avgPxClose - 1 / avgPxOpen
  | .flat => 0

/-- `Position._calculate_return`. -/
def calculateReturn (p : Position) (avgPxOpen avgPxClose : ℚ) : ℚ :=
  p.calculatePoints avgPxOpen avgPxClose / avgPxOpen

/-- `Position._calculate_pnl`. -/
def calculatePnl (p : Position) (avgPxOpen avgPxClose quantity : ℚ) : ℚ :=
  if p.isInverse then
    quantity * p.multiplier * p.calculatePointsInverse avgPxOpen avgPxClose
  else
    quantity * p.multiplier * p.calculatePoints avgPxOpen avgPxClose

/-- `Position._calculate_avg_px`: quantity-weighted average price. -/
def calculateAvgPx (qty avgPx : ℚ) (fill : OrderFilled) : ℚ :=
  (avgPx * qty + fill.lastPx * fill.lastQty) / (qty + fill.lastQty)

/-- `Position._calculate_avg_px_open_px`. -/
def calculateAvgPxOpenPx (p : Position) (fill : OrderFilled) : ℚ :=
  calculateAvgPx (ratAbs p.netQty) p.avgPxOpen fill

/-- `Position._calculate_avg_px_close_px`.  The source's
`if not self.avg_px_close` treats both `None` and `Decimal(0)` as unset
(Python truthiness). -/
def calculateAvgPxClosePx (p : Position) (fill : OrderFilled) : ℚ :=
  match p.avgPxClose with
  | none => fill.lastPx
  | some apc =>
    if apc = 0 then fill.lastPx
    else
      let closeQty := if p.side = .long then p.sellQty else p.buyQty
      calculateAvgPx closeQty apc fill

/-- The commission contribution to the fill's realized PnL: subtracted
iff the commission currency is the position's cost currency (the
initializer of `realized_pnl` in both fill handlers). -/
def fillCommissionPnl (p : Position) (fill : OrderFilled) : ℚ :=
  if fill.commission.currency = p.costCurrency then -fill.commission.amount else 0

/-- The closing-portion PnL realized by a fill, per the branch structure of
`_handle_buy_order_fill` / `_handle_sell_order_fill`: only a fill opposing
the current net quantity realizes `_calculate_pnl(avg_px_open, last_px,
last_qty)`. -/
def fillClosingPnl (p : Position) (fill : OrderFilled) : ℚ :=
  match fill.orderSide with
  | .buy => if p.netQty < 0 then p.calculatePnl p.avgPxOpen fill.lastPx fill.lastQty else 0
  | .sell => if p.netQty > 0 then p.calculatePnl p.avgPxOpen fill.lastPx fill.lastQty else 0

/-- `Position._handle_buy_order_fill`. -/
def handleBuyOrderFill (p : Position) (fill : OrderFilled) : Position :=
  let realizedPnl0 := fillCommissionPnl p fill
  let step :=
    if p.netQty > 0 then
      ({ p with avgPxOpen := p.calculateAvgPxOpenPx fill }, realizedPnl0)
    else if p.netQty < 0 then
      let apc := p.calculateAvgPxClosePx fill
      ({ p with
          avgPxClose := some apc
          realizedPoints := p.calculatePoints p.avgPxOpen apc
          realizedReturn := p.calculateReturn p.avgPxOpen apc },
        realizedPnl0 + p.calculatePnl p.avgPxOpen fill.lastPx fill.lastQty)
    else
      (p, realizedPnl0)
  { step.1 with
      realizedPnl := ⟨p.realizedPnl.amount + step.2, p.costCurrency⟩
      buyQty := p.buyQty + fill.lastQty
      netQty := p.netQty + fill.lastQty }

/-- `Position._handle_sell_order_fill`. -/
def handleSellOrderFill (p : Position) (fill : OrderFilled) : Position :=
  let realizedPnl0 := fillCommissionPnl p fill
  let step :=
    if p.netQty < 0 then
      ({ p with avgPxOpen := p.calculateAvgPxOpenPx fill }, realizedPnl0)
    else if p.netQty > 0 then
      let apc := p.calculateAvgPxClosePx fill
      ({ p with
          avgPxClose := some apc
          realizedPoints := p.calculatePoints p.avgPxOpen apc
          realizedReturn := p.calculateReturn p.avgPxOpen apc },
        realizedPnl0 + p.calculatePnl p.avgPxOpen fill.lastPx fill.lastQty)
    else
      (p, realizedPnl0)
  { step.1 with
      realizedPnl := ⟨p.realizedPnl.amount + step.2, p.costCurrency⟩
      sellQty := p.sellQty + fill.lastQty
      netQty := p.netQty - fill.lastQty }

/-- The side dispatch of `Position.apply`: `if fill.order_side == BUY:
self._handle_buy_order_fill(fill) elif ... SELL: self._handle_sell_order_fill(fill)`. -/
def handleOrderFill (p : Position) (fill : OrderFilled) : Position :=
  match fill.orderSide with
  | .buy => handleBuyOrderFill p fill
  | .sell => handleSellOrderFill p fill

/-- The tail of `Position.apply` after the side handler has run: set
quantities (`quantity = abs(net_qty)`, `peak_qty`), set state
(side/entry/`ts_closed`/`duration_ns` from the sign of `net_qty`), and
stamp `ts_last`. -/
def finalizeFill (p3 : Position) (fill : OrderFilled) : Position :=
  let qty := ratAbs p3.netQty
  let p4 := { p3 with
    quantity := qty
    peakQty := if qty > p3.peakQty then qty else p3.peakQty }
  let p5 :=
    if p4.netQty > 0 then
      { p4 with entry := .buy, side := .long, tsClosed := 0, durationNs := 0 }
    else if p4.netQty < 0 then
      { p4 with entry := .sell, side := .short, tsClosed := 0, durationNs := 0 }
    else
      { p4 with side := .flat, tsClosed := fill.tsEvent,
                durationNs := fill.tsEvent - p4.tsOpened }
  { p5 with tsLast := fill.tsEvent }

/-- `Position.apply(fill)`: rejects duplicate `execution_id`s, appends the
event, folds commission into the per-currency map, dispatches to the side
handler, then recomputes quantities, side and timestamps. -/
def apply (p : Position) (fill : OrderFilled) : Except String Position :=
  if fill.executionId ∈ p.executionIds then
    .error "duplicate execution_id"
  else
    let p1 := { p with
      events := p.events ++ [fill]
      executionIds := p.executionIds ++ [fill.executionId] }
    let cur := fill.commission.currency
    let p2 := { p1 with
      commissions := dictSet p1.commissions cur
        (dictGet p1.commissions cur + fill.commission.amount) }
    .ok (finalizeFill (handleOrderFill p2 fill) fill)

/-- `Position.unrealized_pnl(last)`: zero in the quote currency when
flat, otherwise `_calculate_pnl` over the open quantity in the cost
currency. -/
def unrealizedPnl (p : Position) (last : ℚ) : Money :=
  if p.side = .flat then ⟨0, p.quoteCurrency⟩
  else ⟨p.calculatePnl p.avgPxOpen last p.quantity, p.costCurrency⟩

/-- `Position.total_pnl(last)`: realized plus unrealized amounts, denominated
in the cost currency (the 2021 `Money` addition yields the decimal sum of
the amounts). -/
def totalPnl (p : Position) (last : ℚ) : Money :=
  ⟨p.realizedPnl.amount + (p.unrealizedPnl last).amount, p.costCurrency⟩

end Position

/-- The state seeded by `Position.__init__` before the constructor calls
`self.apply(fill)`. -/
def initialPosition (inst : Instrument) (fill : OrderFilled) : Position where
  events := []
  executionIds := []
  buyQty := 0
  sellQty := 0
  commissions := []
  traderId := fill.traderId
  strategyId := fill.strategyId
  instrumentId := fill.instrumentId
  id := fill.positionId
  accountId := fill.accountId
  fromOrder := fill.clientOrderId
  entry := fill.orderSide
  side := Position.sideFromOrderSide fill.orderSide
  netQty := 0
  quantity := 0
  peakQty := 0
  tsInit := fill.tsInit
  tsOpened := fill.tsEvent
  tsLast := fill.tsEvent
  tsClosed := 0
  durationNs := 0
  avgPxOpen := fill.lastPx
  avgPxClose := none
  pricePrecision := inst.pricePrecision
  sizePrecision := inst.sizePrecision
  multiplier := inst.multiplier
  isInverse := inst.isInverse
  quoteCurrency := inst.quoteCurrency
  baseCurrency := inst.baseCurrency
  costCurrency := inst.getCostCurrency
  realizedPoints := 0
  realizedReturn := 0
  realizedPnl := ⟨0, inst.getCostCurrency⟩

/-- `Position.__init__`: checks the instrument id against the fill, seeds
the aggregate and applies the opening fill. -/
def positionOpen (inst : Instrument) (fill : OrderFilled) : Except String Position :=
  if inst.id = fill.instrumentId then (initialPosition inst fill).apply fill
  else .error "instrument.id != fill.instrument_id"

/-- An emitted `Bar` (`model/data/bar`); `ts_event` and `ts_init` are set
to the same close timestamp by `BarBuilder.build`.  Price fields are
optional because a bar built before any tick carries the last close,
which may itself be absent. -/
structure Bar where
  openPx : Option ℚ
  high : Option ℚ
  low : Option ℚ
  close : Option ℚ
  volume : ℚ
  tsEvent : Int
  tsInit : Int
deriving DecidableEq, Repr

/-- `BarBuilder` state (`model/position.pyx`, second compilation unit). -/
structure BarBuilder where
  openPx : Option ℚ
  high : Option ℚ
  low : Option ℚ
  close : Option ℚ
  lastClose : Option ℚ
  volume : ℚ
  count : Nat
  tsLast : Int
  initialized : Bool
deriving DecidableEq, Repr

/-- A freshly constructed `BarBuilder`. -/
def BarBuilder.new : BarBuilder where
  openPx := none
  high := none
  low := none
  close := none
  lastClose := none
  volume := 0
  count := 0
  tsLast := 0
  initialized := false

/-- `BarBuilder.update(price, size, ts_event)`: drops stale updates
(`ts_event < ts_last`), initializes OHLC on the first tick, otherwise
extends the extremes, and always rolls close/volume/count/ts_last. -/
def BarBuilder.update (b : BarBuilder) (price size : ℚ) (tsEvent : Int) : BarBuilder :=
  if tsEvent < b.tsLast then b
  else
    let b1 :=
      match b.openPx with
      | none => { b with openPx := some price, high := some price, low := some price,
                         initialized := true }
      | some _ =>
        match b.high, b.low with
        | some hi, some lo =>
          if price > hi then { b with high := some price }
          else if price < lo then { b with low := some price }
          else b
        | _, _ => b
    { b1 with close := some price, volume := b1.volume + size,
              count := b1.count + 1, tsLast := tsEvent }

/-- `BarBuilder.build(ts_event)`: backfills an empty bar from the last
close, returns the bar, then resets open/high/low to the close and zeroes
volume and count (`reset()`), remembering the close in `_last_close`. -/
def BarBuilder.build (b : BarBuilder) (tsEvent : Int) : Bar × BarBuilder :=
  let b1 :=
    if b.openPx = none then
      { b with openPx := b.lastClose, high := b.lastClose, low := b.lastClose,
               close := b.lastClose }
    else b
  let bar : Bar :=
    { openPx := b1.openPx, high := b1.high, low := b1.low, close := b1.close,
      volume := b1.volume, tsEvent := tsEvent, tsInit := tsEvent }
  (bar, { b1 with lastClose := b1.close, openPx := b1.close, high := b1.close,
                  low := b1.close, volume := 0, count := 0 })

/-- `BarBuilder.build_now()`: build with the builder's own `ts_last`. -/
def BarBuilder.buildNow (b : BarBuilder) : Bar × BarBuilder :=
  b.build b.tsLast

/-- State of a `VolumeBarAggregator`: its builder plus the bars sent to
the handler, in emission order. -/
structure VolAggState where
  builder : BarBuilder
  emitted : List Bar
deriving DecidableEq, Repr

/-- The `while size_update > 0` loop of
`VolumeBarAggregator._apply_update`, with explicit fuel (the source loop
terminates because each emission consumes `step` of the remaining size). -/
def volumeLoop (step price : ℚ) (tsEvent : Int) :
    Nat → VolAggState → ℚ → VolAggState
  | 0, st, _ => st
  | fuel + 1, st, sizeUpdate =>
    if 0 < sizeUpdate then
      if st.builder.volume + sizeUpdate < step then
        { st with builder := st.builder.update price sizeUpdate tsEvent }
      else
        let sizeDiff := step - st.builder.volume
        let b1 := st.builder.update price sizeDiff tsEvent
        let built := b1.buildNow
        volumeLoop step price tsEvent fuel
          { builder := built.2, emitted := st.emitted ++ [built.1] }
          (sizeUpdate - sizeDiff)
    else st

/-- `VolumeBarAggregator._apply_update`: run the split loop.  The fuel
`size.num.natAbs + 2` dominates the number of iterations the source loop
makes, since every iteration but the last consumes a full `step` of the
remaining size and the bar specification's step is a positive integer. -/
def volumeApplyUpdate (step : ℚ) (st : VolAggState) (price size : ℚ)
    (tsEvent : Int) : VolAggState :=
  volumeLoop step price tsEvent (size.num.natAbs + 2) st size

/-- State of a `TimeBarAggregator` under the embedded test timer: the
timer is represented by its `next_time_ns`. -/
structure TimeAggState where
  builder : BarBuilder
  emitted : List Bar
  nextCloseNs : Int
  timerNextNs : Int
  intervalNs : Int
  buildOnNextTick : Bool
  storedCloseNs : Int
  isTestClock : Bool
deriving DecidableEq, Repr

/-- `TimeBarAggregator._build_event(event)`: if the builder has never been
initialized, flag a build on the next tick with the stored close time,
else build at the event time and send. -/
def timeBuildEvent (st : TimeAggState) (eventTs : Int) : TimeAggState :=
  if !st.builder.initialized then
    { st with buildOnNextTick := true, storedCloseNs := st.nextCloseNs }
  else
    let built := st.builder.build eventTs
    { st with builder := built.2, emitted := st.emitted ++ [built.1] }

/-- `TimeBarAggregator._build_bar(ts_event)`: pop the next timer event
(whose time is the timer's `next_time_ns`, advancing the timer by the
interval), run `_build_event`, then refresh `next_close_ns` from the
timer.  The source ignores its `ts_event` argument. -/
def timeBuildBar (st : TimeAggState) (_tsEvent : Int) : TimeAggState :=
  let eventTs := st.timerNextNs
  let st1 := { st with timerNextNs := st.timerNextNs + st.intervalNs }
  let st2 := timeBuildEvent st1 eventTs
  { st2 with nextCloseNs := st2.timerNextNs }

/-- `TimeBarAggregator._apply_update`: under a test clock, an update
straddling `next_close_ns` builds first then applies (`<`) or applies
first then builds (`=`); otherwise the update is applied and a pending
`build_on_next_tick` flag is honoured. -/
def timeApplyUpdate (st : TimeAggState) (price size : ℚ) (tsEvent : Int) :
    TimeAggState :=
  let applyTail := fun (st : TimeAggState) =>
    let st1 := { st with builder := st.builder.update price size tsEvent }
    if st1.buildOnNextTick then
      let built := st1.builder.build st1.storedCloseNs
      { st1 with builder := built.2, emitted := st1.emitted ++ [built.1],
                 buildOnNextTick := false, storedCloseNs := 0 }
    else st1
  if st.isTestClock then
    if st.nextCloseNs < tsEvent then
      let st1 := timeBuildBar st st.nextCloseNs
      { st1 with builder := st1.builder.update price size tsEvent }
    else if st.nextCloseNs = tsEvent then
      let st1 := { st with builder := st.builder.update price size tsEvent }
      timeBuildBar st1 st1.nextCloseNs
    else applyTail st
  else applyTail st

/-- A resting top-of-book order (`model/orderbook/data`, `Order`): the
`price`/`size` pair mutated in place by the simulated L1 book.  Python
`double` prices are modelled as exact rationals. -/
structure BookOrder where
  price : ℚ
  size : ℚ
deriving DecidableEq, Repr

/-- `SimulatedL1OrderBook` observable state: the single top bid/ask
orders and the price of the level holding each (the level price is kept
in lockstep with the order's). -/
structure L1Book where
  topBid : Option BookOrder
  topAsk : Option BookOrder
  topBidLevelPrice : Option ℚ
  topAskLevelPrice : Option ℚ
deriving DecidableEq, Repr

/-- A book with no levels yet. -/
def L1Book.empty : L1Book := ⟨none, none, none, none⟩

/-- `SimulatedL1OrderBook._update_bid`: create the top bid if absent,
else overwrite its price and size (and the level price). -/
def L1Book.updateBid (bk : L1Book) (price size : ℚ) : L1Book :=
  { bk with topBid := some ⟨price, size⟩, topBidLevelPrice := some price }

/-- `SimulatedL1OrderBook._update_ask`. -/
def L1Book.updateAsk (bk : L1Book) (price size : ℚ) : L1Book :=
  { bk with topAsk := some ⟨price, size⟩, topAskLevelPrice := some price }

/-- `SimulatedL1OrderBook._update_quote_tick`: set both sides. -/
def L1Book.updateQuoteTick (bk : L1Book) (bid bidSize ask askSize : ℚ) : L1Book :=
  (bk.updateBid bid bidSize).updateAsk ask askSize

/-- `SimulatedL1OrderBook._update_trade_tick`: a `SELL` aggressor updates
the bid, a `BUY` aggressor the ask; if the book is then crossed the
untouched side's price is forced to the touched side's price. -/
def L1Book.updateTradeTick (bk : L1Book) (aggressor : AggressorSide)
    (price size : ℚ) : L1Book :=
  match aggressor with
  | .sell =>
    let b := bk.updateBid price size
    match b.topAsk, b.topBid with
    | some ask, some bid =>
      if bid.price ≥ ask.price then
        { b with topAsk := some { ask with price := bid.price },
                 topAskLevelPrice := some bid.price }
      else b
    | _, _ => b
  | .buy =>
    let b := bk.updateAsk price size
    match b.topBid, b.topAsk with
    | some bid, some ask =>
      if ask.price ≤ bid.price then
        { b with topBid := some { bid with price := ask.price },
                 topBidLevelPrice := some ask.price }
      else b
    | _, _ => b

/-- The `StopLimitOrder` fields touched by `_updated` / `_triggered`
(`model/orders/stop_limit.pyx`). -/
structure StopLimitOrder where
  price : ℚ
  trigger : ℚ
  isTriggered : Bool
  quantity : ℚ
  venueOrderId : Option String
deriving DecidableEq, Repr

/-- The `OrderUpdated` event fields consumed by `StopLimitOrder._updated`. -/
structure OrderUpdated where
  venueOrderId : Option String
  quantity : ℚ
  price : ℚ
deriving DecidableEq, Repr

/-- `StopLimitOrder._updated(event)`: always takes the venue order id and
quantity; the event price rewrites the limit price once triggered, the
trigger price before. -/
def StopLimitOrder.updated (o : StopLimitOrder) (event : OrderUpdated) : StopLimitOrder :=
  { o with
      venueOrderId := event.venueOrderId
      quantity := event.quantity
      price := if o.isTriggered then event.price else o.price
      trigger := if o.isTriggered then o.trigger else event.price }

/-- `StopLimitOrder._triggered(event)`. -/
def StopLimitOrder.triggered (o : StopLimitOrder) : StopLimitOrder :=
  { o with isTriggered := true }

/-! Concrete instruments, fills and states used by the literal scenarios
and the witnesses. -/

/-- A non-inverse instrument with symbolic multiplier for the position
flip scenario. -/
def flipInstrument (m : ℚ) : Instrument where
  id := "AUD/USD.SIM"
  pricePrecision := 2
  sizePrecision := 0
  multiplier := m
  isInverse := false
  quoteCurrency := "USD"
  baseCurrency := some "AUD"

/-- Opening BUY fill `qty=5 @ 10.00`, zero commission. -/
def flipFill1 : OrderFilled where
  traderId := "TRADER-001"
  strategyId := "S-001"
  instrumentId := "AUD/USD.SIM"
  positionId := "P-1"
  accountId := "SIM-000"
  clientOrderId := "O-1"
  executionId := "E-1"
  orderSide := .buy
  lastQty := 5
  lastPx := 10
  commission := ⟨0, "USD"⟩
  tsEvent := 0
  tsInit := 0

/-- Flipping SELL fill `qty=8 @ 12.00`, zero commission. -/
def flipFill2 : OrderFilled where
  traderId := "TRADER-001"
  strategyId := "S-001"
  instrumentId := "AUD/USD.SIM"
  positionId := "P-1"
  accountId := "SIM-000"
  clientOrderId := "O-2"
  executionId := "E-2"
  orderSide := .sell
  lastQty := 8
  lastPx := 12
  commission := ⟨0, "USD"⟩
  tsEvent := 1
  tsInit := 1

/-- The position-flip scenario of spec §8: open LONG with `flipFill1`,
then apply `flipFill2`. -/
def flipScenario (m : ℚ) : Except String Position :=
  (positionOpen (flipInstrument m) flipFill1).bind fun p => p.apply flipFill2

/-- The state the flip scenario reaches after the opening BUY fill,
written out field by field. -/
def flipOpenState (m : ℚ) : Position where
  events := [flipFill1]
  executionIds := ["E-1"]
  buyQty := 5
  sellQty := 0
  commissions := [("USD", 0)]
  traderId := "TRADER-001"
  strategyId := "S-001"
  instrumentId := "AUD/USD.SIM"
  id := "P-1"
  accountId := "SIM-000"
  fromOrder := "O-1"
  entry := .buy
  side := .long
  netQty := 5
  quantity := 5
  peakQty := 5
  tsInit := 0
  tsOpened := 0
  tsLast := 0
  tsClosed := 0
  durationNs := 0
  avgPxOpen := 10
  avgPxClose := none
  pricePrecision := 2
  sizePrecision := 0
  multiplier := m
  isInverse := false
  quoteCurrency := "USD"
  baseCurrency := some "AUD"
  costCurrency := "USD"
  realizedPoints := 0
  realizedReturn := 0
  realizedPnl := ⟨0, "USD"⟩

/-- The state the flip scenario reaches after the flipping SELL fill,
written out field by field. -/
def flipFinalState (m : ℚ) : Position where
  events := [flipFill1, flipFill2]
  executionIds := ["E-1", "E-2"]
  buyQty := 5
  sellQty := 8
  commissions := [("USD", 0)]
  traderId := "TRADER-001"
  strategyId := "S-001"
  instrumentId := "AUD/USD.SIM"
  id := "P-1"
  accountId := "SIM-000"
  fromOrder := "O-1"
  entry := .sell
  side := .short
  netQty := -3
  quantity := 3
  peakQty := 5
  tsInit := 0
  tsOpened := 0
  tsLast := 1
  tsClosed := 0
  durationNs := 0
  avgPxOpen := 10
  avgPxClose := some 12
  pricePrecision := 2
  sizePrecision := 0
  multiplier := m
  isInverse := false
  quoteCurrency := "USD"
  baseCurrency := some "AUD"
  costCurrency := "USD"
  realizedPoints := 2
  realizedReturn := 1/5
  realizedPnl := ⟨16 * m, "USD"⟩

/-- The LONG position after the opening fill of the flip scenario, with
multiplier 1: a concrete sample for witnesses. -/
def samplePosition : Position :=
  flipOpenState 1

/-- A fill reusing the already-applied execution id `E-1`. -/
def sampleDupFill : OrderFilled :=
  { flipFill2 with executionId := "E-1", clientOrderId := "O-3" }

/-- A closing SELL fill `qty=5 @ 11.00` with a commission of `2 USD`,
returning `samplePosition` to FLAT. -/
def sampleCloseFill : OrderFilled where
  traderId := "TRADER-001"
  strategyId := "S-001"
  instrumentId := "AUD/USD.SIM"
  positionId := "P-1"
  accountId := "SIM-000"
  clientOrderId := "O-4"
  executionId := "E-4"
  orderSide := .sell
  lastQty := 5
  lastPx := 11
  commission := ⟨2, "USD"⟩
  tsEvent := 2
  tsInit := 2

/-- The flat position reached by closing `samplePosition` with
`sampleCloseFill`. -/
def sampleFlatPosition : Position :=
  ((samplePosition.apply sampleCloseFill).toOption).getD samplePosition

/-- The volume-bar split scenario of spec §8: `step=100`, updates
`(price=1.0, size=60)` then `(price=1.1, size=80)`. -/
def volScenario : VolAggState :=
  volumeApplyUpdate 100 (volumeApplyUpdate 100 ⟨BarBuilder.new, []⟩ 1 60 1) (11/10) 80 2

/-- A volume-aggregator state mid-bar, for the generic split witness. -/
def sampleVolState : VolAggState :=
  ⟨BarBuilder.new.update 1 60 1, []⟩

/-- A time-bar aggregator state under a test clock, one tick already
applied, next close at `t = 60`. -/
def sampleTimeState : TimeAggState where
  builder := BarBuilder.new.update 1 2 3
  emitted := []
  nextCloseNs := 60
  timerNextNs := 60
  intervalNs := 60
  buildOnNextTick := false
  storedCloseNs := 0
  isTestClock := true

/-- A stale-update sample builder whose `ts_last` is already 5. -/
def sampleBuilder : BarBuilder :=
  BarBuilder.new.update 1 2 5

/-- An L1 book quoted `bid=1.00, ask=1.01` (sizes 1). -/
def sampleBook : L1Book :=
  L1Book.empty.updateQuoteTick 1 1 (101/100) 1

/-- A stop-limit order, not yet triggered: limit `price=100`,
`trigger=105`. -/
def sampleStopLimit : StopLimitOrder where
  price := 100
  trigger := 105
  isTriggered := false
  quantity := 10
  venueOrderId := none

/-- An update event carrying `price=106`. -/
def sampleOrderUpdated : OrderUpdated where
  venueOrderId := some "V-1"
  quantity := 10
  price := 106

/-! Helper lemmas shared by the claim theorems. -/

theorem dictGet_dictSet_self (m : List (Currency × ℚ)) (c : Currency) (v : ℚ) :
    dictGet (dictSet m c v) c = v := by
  induction m with
  | nil => simp [dictGet, dictSet]
  | cons kv rest ih =>
    obtain ⟨k, w⟩ := kv
    by_cases hk : k = c <;> simp [dictGet, dictSet, hk, ih]

theorem dictGet_dictSet_ne (m : List (Currency × ℚ)) {c c' : Currency}
    (h : c' ≠ c) (v : ℚ) : dictGet (dictSet m c v) c' = dictGet m c' := by
  induction m with
  | nil => simp [dictGet, dictSet, Ne.symm h]
  | cons kv rest ih =>
    obtain ⟨k, w⟩ := kv
    by_cases hk : k = c
    · subst hk
      simp [dictGet, dictSet, Ne.symm h]
    · by_cases hk2 : k = c' <;> simp [dictGet, dictSet, hk, hk2, h, ih]

theorem BarBuilder.update_volume (b : BarBuilder) (price size : ℚ) (ts : Int)
    (h : ¬ ts < b.tsLast) : (b.update price size ts).volume = b.volume + size := by
  rw [BarBuilder.update, if_neg h]
  cases hb : b.openPx <;> cases hh : b.high <;> cases hl : b.low <;>
    simp only [hb, hh, hl] <;> (try split_ifs) <;> rfl

theorem BarBuilder.update_close (b : BarBuilder) (price size : ℚ) (ts : Int)
    (h : ¬ ts < b.tsLast) : (b.update price size ts).close = some price := by
  rw [BarBuilder.update, if_neg h]

theorem BarBuilder.update_tsLast (b : BarBuilder) (price size : ℚ) (ts : Int)
    (h : ¬ ts < b.tsLast) : (b.update price size ts).tsLast = ts := by
  rw [BarBuilder.update, if_neg h]

theorem BarBuilder.update_openPx_isSome (b : BarBuilder) (price size : ℚ) (ts : Int)
    (h : ¬ ts < b.tsLast) : (b.update price size ts).openPx ≠ none := by
  rw [BarBuilder.update, if_neg h]
  cases hb : b.openPx <;> cases hh : b.high <;> cases hl : b.low <;>
    simp only [hb, hh, hl] <;> (try split_ifs) <;> simp [hb]

theorem BarBuilder.update_initialized (b : BarBuilder) (price size : ℚ) (ts : Int)
    (h : b.initialized = true) : (b.update price size ts).initialized = true := by
  rw [BarBuilder.update]
  split_ifs with hs
  · exact h
  · cases hb : b.openPx <;> cases hh : b.high <;> cases hl : b.low <;>
      simp only [hb, hh, hl] <;> (try split_ifs) <;> simp [h]

theorem BarBuilder.build_fst_volume (b : BarBuilder) (ts : Int) :
    (b.build ts).1.volume = b.volume := by
  by_cases hb : b.openPx = none <;> simp [BarBuilder.build, hb]

theorem BarBuilder.build_fst_tsEvent (b : BarBuilder) (ts : Int) :
    (b.build ts).1.tsEvent = ts := by
  by_cases hb : b.openPx = none <;> simp [BarBuilder.build, hb]

theorem BarBuilder.build_fst_close (b : BarBuilder) (ts : Int)
    (h : b.openPx ≠ none) : (b.build ts).1.close = b.close := by
  simp [BarBuilder.build, h]

theorem Position.handleBuyOrderFill_spec (p : Position) (f : OrderFilled) :
    (p.handleBuyOrderFill f).executionIds = p.executionIds ∧
    (p.handleBuyOrderFill f).events = p.events ∧
    (p.handleBuyOrderFill f).commissions = p.commissions ∧
    (p.handleBuyOrderFill f).tsOpened = p.tsOpened ∧
    (p.handleBuyOrderFill f).netQty = p.netQty + f.lastQty ∧
    (p.handleBuyOrderFill f).realizedPnl.currency = p.costCurrency ∧
    (p.handleBuyOrderFill f).realizedPnl.amount =
      p.realizedPnl.amount +
        (if p.netQty < 0 then p.calculatePnl p.avgPxOpen f.lastPx f.lastQty else 0) +
        p.fillCommissionPnl f := by
  simp only [Position.handleBuyOrderFill]
  by_cases h1 : p.netQty > 0
  · simp only [if_pos h1, if_neg (show ¬ p.netQty < 0 by linarith)]
    refine ⟨?_, ?_, ?_, ?_, ?_, ?_, ?_⟩ <;> try trivial
    ring
  · by_cases h2 : p.netQty < 0
    · simp only [if_neg h1, if_pos h2]
      refine ⟨?_, ?_, ?_, ?_, ?_, ?_, ?_⟩ <;> try trivial
      ring
    · simp only [if_neg h1, if_neg h2]
      refine ⟨?_, ?_, ?_, ?_, ?_, ?_, ?_⟩ <;> try trivial
      ring

theorem Position.handleSellOrderFill_spec (p : Position) (f : OrderFilled) :
    (p.handleSellOrderFill f).executionIds = p.executionIds ∧
    (p.handleSellOrderFill f).events = p.events ∧
    (p.handleSellOrderFill f).commissions = p.commissions ∧
    (p.handleSellOrderFill f).tsOpened = p.tsOpened ∧
    (p.handleSellOrderFill f).netQty = p.netQty - f.lastQty ∧
    (p.handleSellOrderFill f).realizedPnl.currency = p.costCurrency ∧
    (p.handleSellOrderFill f).realizedPnl.amount =
      p.realizedPnl.amount +
        (if p.netQty > 0 then p.calculatePnl p.avgPxOpen f.lastPx f.lastQty else 0) +
        p.fillCommissionPnl f := by
  simp only [Position.handleSellOrderFill]
  by_cases h1 : p.netQty < 0
  · simp only [if_pos h1, if_neg (show ¬ p.netQty > 0 by linarith)]
    refine ⟨?_, ?_, ?_, ?_, ?_, ?_, ?_⟩ <;> try trivial
    ring
  · by_cases h2 : p.netQty > 0
    · simp only [if_neg h1, if_pos h2]
      refine ⟨?_, ?_, ?_, ?_, ?_, ?_, ?_⟩ <;> try trivial
      ring
    · simp only [if_neg h1, if_neg h2]
      refine ⟨?_, ?_, ?_, ?_, ?_, ?_, ?_⟩ <;> try trivial
      ring

theorem Position.handleOrderFill_spec (p : Position) (f : OrderFilled) :
    (p.handleOrderFill f).executionIds = p.executionIds ∧
    (p.handleOrderFill f).events = p.events ∧
    (p.handleOrderFill f).commissions = p.commissions ∧
    (p.handleOrderFill f).tsOpened = p.tsOpened ∧
    (p.handleOrderFill f).realizedPnl.currency = p.costCurrency ∧
    (p.handleOrderFill f).realizedPnl.amount =
      p.realizedPnl.amount + p.fillClosingPnl f + p.fillCommissionPnl f := by
  cases hs : f.orderSide
  · obtain ⟨e1, e2, e3, e4, _, e6, e7⟩ := Position.handleBuyOrderFill_spec p f
    simp only [Position.handleOrderFill, Position.fillClosingPnl, hs]
    exact ⟨e1, e2, e3, e4, e6, e7⟩
  · obtain ⟨e1, e2, e3, e4, _, e6, e7⟩ := Position.handleSellOrderFill_spec p f
    simp only [Position.handleOrderFill, Position.fillClosingPnl, hs]
    exact ⟨e1, e2, e3, e4, e6, e7⟩

theorem Position.finalizeFill_spec (p3 : Position) (fill : OrderFilled) :
    (p3.finalizeFill fill).netQty = p3.netQty ∧
    (p3.finalizeFill fill).executionIds = p3.executionIds ∧
    (p3.finalizeFill fill).commissions = p3.commissions ∧
    (p3.finalizeFill fill).realizedPnl = p3.realizedPnl ∧
    (p3.finalizeFill fill).tsOpened = p3.tsOpened ∧
    (0 < p3.netQty →
      (p3.finalizeFill fill).side = .long ∧ (p3.finalizeFill fill).tsClosed = 0) ∧
    (p3.netQty < 0 →
      (p3.finalizeFill fill).side = .short ∧ (p3.finalizeFill fill).tsClosed = 0) ∧
    (p3.netQty = 0 →
      (p3.finalizeFill fill).side = .flat ∧
      (p3.finalizeFill fill).tsClosed = fill.tsEvent ∧
      (p3.finalizeFill fill).durationNs = fill.tsEvent - p3.tsOpened) := by
  unfold Position.finalizeFill
  dsimp only
  rcases lt_trichotomy p3.netQty 0 with hneg | hzero | hpos
  · rw [if_neg (by linarith : ¬ p3.netQty > 0), if_pos hneg]
    exact ⟨rfl, rfl, rfl, rfl, rfl, fun h => absurd h (by linarith),
      fun _ => ⟨rfl, rfl⟩, fun h => absurd h (by linarith)⟩
  · rw [if_neg (by linarith : ¬ p3.netQty > 0), if_neg (by linarith : ¬ p3.netQty < 0)]
    exact ⟨rfl, rfl, rfl, rfl, rfl, fun h => absurd h (by linarith),
      fun h => absurd h (by linarith), fun _ => ⟨rfl, rfl, rfl⟩⟩
  · rw [if_pos hpos]
    exact ⟨rfl, rfl, rfl, rfl, rfl, fun _ => ⟨rfl, rfl⟩,
      fun h => absurd h (by linarith), fun h => absurd h (by linarith)⟩

theorem Position.applyFill_ok (p : Position) (fill : OrderFilled) (q : Position)
    (h : p.apply fill = .ok q) :
    ∃ p3 : Position, q = p3.finalizeFill fill ∧
      p3.executionIds = p.executionIds ++ [fill.executionId] ∧
      p3.commissions = dictSet p.commissions fill.commission.currency
        (dictGet p.commissions fill.commission.currency + fill.commission.amount) ∧
      p3.tsOpened = p.tsOpened ∧
      p3.realizedPnl.amount =
        p.realizedPnl.amount + p.fillClosingPnl fill + p.fillCommissionPnl fill ∧
      p3.realizedPnl.currency = p.costCurrency := by
  rw [Position.apply] at h
  by_cases hm : fill.executionId ∈ p.executionIds
  · rw [if_pos hm] at h
    exact absurd h (by simp)
  · rw [if_neg hm] at h
    injection h with h
    refine ⟨_, h.symm, ?_, ?_, ?_, ?_, ?_⟩
    · exact (Position.handleOrderFill_spec _ fill).1
    · exact (Position.handleOrderFill_spec _ fill).2.2.1
    · exact (Position.handleOrderFill_spec _ fill).2.2.2.1
    · exact (Position.handleOrderFill_spec _ fill).2.2.2.2.2
    · exact (Position.handleOrderFill_spec _ fill).2.2.2.2.1

theorem flipScenario_open (m : ℚ) :
    positionOpen (flipInstrument m) flipFill1 = .ok (flipOpenState m) := by
  norm_num [positionOpen, initialPosition, Position.apply, Position.finalizeFill,
    Position.handleOrderFill, Position.handleBuyOrderFill, Position.fillCommissionPnl,
    Instrument.getCostCurrency, ratAbs, dictGet, dictSet, flipInstrument, flipFill1,
    flipOpenState]

theorem flipScenario_close (m : ℚ) :
    (flipOpenState m).apply flipFill2 = .ok (flipFinalState m) := by
  norm_num [Position.apply, Position.finalizeFill, Position.handleOrderFill,
    Position.handleSellOrderFill, Position.fillCommissionPnl, Position.calculateAvgPxClosePx,
    Position.calculatePoints, Position.calculateReturn, Position.calculatePnl, ratAbs,
    dictGet, dictSet, flipOpenState, flipFill1, flipFill2, flipFinalState]
  rw [if_neg (show ¬("E-2" : String) = "E-1" by decide)]
  have hm : (8 : ℚ) * m * 2 = 16 * m := by ring
  rw [hm]

/-! The claims. -/

/-- C1 (amended): in the position-flip scenario (open LONG with BUY
`qty=5 @ 10.00`, then SELL `qty=8 @ 12.00`, no commission), the code
realizes PnL over the *full* fill quantity — `realized_pnl =
8·multiplier·(12−10)` — and leaves `avg_px_open` at the original `10.00`;
the final state is `side=SHORT`, `net_qty=−3`, `avg_px_close=12.00`.  The
claimed `realized_pnl = 5·(12−10)·multiplier` and `avg_px_open = 12.00`
do not hold on the code (see the counterexample). -/
theorem position_flip_scenario (m : ℚ) :
    ∃ q, flipScenario m = .ok q ∧ q.side = .short ∧ q.netQty = -3 ∧
      q.avgPxOpen = 10 ∧ q.avgPxClose = some 12 ∧
      q.realizedPnl.amount = 8 * m * (12 - 10) := by
  refine ⟨flipFinalState m, ?_, rfl, rfl, rfl, rfl, by show (16 : ℚ) * m = _; ring⟩
  rw [flipScenario, flipScenario_open]
  exact flipScenario_close m

/-- C1 counterexample: at `multiplier = 1` the flip scenario yields
`realized_pnl = 16 ≠ 5·(12−10)·1 = 10` and `avg_px_open = 10 ≠ 12`. -/
theorem position_flip_claim_counterexample :
    (flipScenario 1).toOption.map (fun q => (q.realizedPnl.amount, q.avgPxOpen)) ≠
      some (5 * (12 - 10) * 1, 12) := by
  have h : flipScenario 1 = .ok (flipFinalState 1) := by
    rw [flipScenario, flipScenario_open]
    exact flipScenario_close 1
  rw [h]
  norm_num [Except.toOption, flipFinalState]

theorem volumeLoop_break (step price : ℚ) (ts : Int) (fuel : Nat) (st : VolAggState)
    (size : ℚ) (h1 : 0 < size) (h2 : st.builder.volume + size < step) :
    volumeLoop step price ts (fuel + 1) st size =
      { st with builder := st.builder.update price size ts } := by
  rw [volumeLoop, if_pos h1, if_pos h2]

theorem volumeLoop_split (step price : ℚ) (ts : Int) (fuel : Nat) (st : VolAggState)
    (size : ℚ) (hth : step ≤ st.builder.volume + size) (hpos : 0 < size) :
    volumeLoop step price ts (fuel + 1) st size =
      volumeLoop step price ts fuel
        { builder := ((st.builder.update price (step - st.builder.volume) ts).buildNow).2,
          emitted :=
            st.emitted ++ [((st.builder.update price (step - st.builder.volume) ts).buildNow).1] }
        (size - (step - st.builder.volume)) := by
  rw [volumeLoop, if_pos hpos, if_neg (not_lt.mpr hth)]

theorem volumeLoop_split_bar (price : ℚ) (ts : Int) (b : BarBuilder) (sizeDiff : ℚ)
    (hts : b.tsLast ≤ ts) :
    ((b.update price sizeDiff ts).buildNow).1.volume = b.volume + sizeDiff ∧
    ((b.update price sizeDiff ts).buildNow).1.close = some price ∧
    ((b.update price sizeDiff ts).buildNow).1.tsEvent = ts := by
  have hn : ¬ ts < b.tsLast := not_lt.mpr hts
  refine ⟨?_, ?_, ?_⟩
  · rw [BarBuilder.buildNow, BarBuilder.build_fst_volume, BarBuilder.update_volume _ _ _ _ hn]
  · rw [BarBuilder.buildNow, BarBuilder.build_fst_close _ _ (BarBuilder.update_openPx_isSome _ _ _ _ hn),
      BarBuilder.update_close _ _ _ _ hn]
  · rw [BarBuilder.buildNow, BarBuilder.build_fst_tsEvent, BarBuilder.update_tsLast _ _ _ _ hn]

theorem volScenario_eval :
    volScenario.emitted = [⟨some 1, some (11/10), some 1, some (11/10), 100, 2, 2⟩] ∧
    volScenario.builder.volume = 40 ∧ volScenario.builder.close = some (11/10) := by
  have h1 : volumeApplyUpdate 100 ⟨BarBuilder.new, []⟩ 1 60 1 =
      ({ builder := ⟨some 1, some 1, some 1, some 1, none, 60, 1, 1, true⟩,
         emitted := [] } : VolAggState) := by
    rw [volumeApplyUpdate, show ((60 : ℚ).num.natAbs + 2) = 61 + 1 from rfl,
      volumeLoop_break 100 1 1 61 ⟨BarBuilder.new, []⟩ 60 (by norm_num)
        (by norm_num [BarBuilder.new])]
    norm_num [BarBuilder.new, BarBuilder.update]
  have h2 : volumeApplyUpdate 100
      ({ builder := ⟨some 1, some 1, some 1, some 1, none, 60, 1, 1, true⟩,
         emitted := [] } : VolAggState) (11/10) 80 2 =
      ({ builder := ⟨some (11/10), some (11/10), some (11/10), some (11/10), some (11/10),
           40, 1, 2, true⟩,
         emitted := [⟨some 1, some (11/10), some 1, some (11/10), 100, 2, 2⟩] } : VolAggState) := by
    rw [volumeApplyUpdate, show ((80 : ℚ).num.natAbs + 2) = 81 + 1 from rfl,
      volumeLoop_split 100 (11/10) 2 81 _ 80 (by norm_num) (by norm_num)]
    dsimp only
    rw [show (100 : ℚ) - 60 = 40 from by norm_num, show (80 : ℚ) - 40 = 40 from by norm_num]
    have hbar : ((⟨some 1, some 1, some 1, some 1, none, 60, 1, 1, true⟩ : BarBuilder).update
        (11/10) 40 2).buildNow =
        (⟨some 1, some (11/10), some 1, some (11/10), 100, 2, 2⟩,
         ⟨some (11/10), some (11/10), some (11/10), some (11/10), some (11/10), 0, 0, 2, true⟩) := by
      norm_num [BarBuilder.update, BarBuilder.buildNow, BarBuilder.build, Option.some_ne_none]
    rw [hbar]
    rw [show (81 : Nat) = 80 + 1 from rfl,
      volumeLoop_break 100 (11/10) 2 80 _ 40 (by norm_num) (by norm_num)]
    norm_num [BarBuilder.update, Option.some_ne_none]
  rw [volScenario, h1, h2]
  norm_num

/-- C2: a volume-bar update that reaches or exceeds the `step` threshold
consumes exactly the remainder `step − volume` into the current bar, emits
a bar whose volume equals `step` (closing at the update's price and
`ts_event`), and re-applies the residual size at the same price and
`ts_event`; concretely, with `step=100`, updates `(1.0, 60)` then
`(1.1, 80)` emit one bar of volume `100` and leave the builder holding
`40` at price `1.1`. -/
theorem volume_bar_split :
    (∀ (fuel : Nat) (st : VolAggState) (step price size : ℚ) (ts : Int),
      st.builder.tsLast ≤ ts → step ≤ st.builder.volume + size → 0 < size →
      volumeLoop step price ts (fuel + 1) st size =
        volumeLoop step price ts fuel
          { builder := ((st.builder.update price (step - st.builder.volume) ts).buildNow).2,
            emitted := st.emitted ++
              [((st.builder.update price (step - st.builder.volume) ts).buildNow).1] }
          (size - (step - st.builder.volume)) ∧
      ((st.builder.update price (step - st.builder.volume) ts).buildNow).1.volume = step ∧
      ((st.builder.update price (step - st.builder.volume) ts).buildNow).1.close = some price ∧
      ((st.builder.update price (step - st.builder.volume) ts).buildNow).1.tsEvent = ts) ∧
    (volScenario.emitted = [⟨some 1, some (11/10), some 1, some (11/10), 100, 2, 2⟩] ∧
     volScenario.builder.volume = 40 ∧ volScenario.builder.close = some (11/10)) := by
  constructor
  · intro fuel st step price size ts hts hth hpos
    obtain ⟨hv, hc, he⟩ := volumeLoop_split_bar price ts st.builder (step - st.builder.volume) hts
    refine ⟨volumeLoop_split step price ts fuel st size hth hpos, ?_, hc, he⟩
    rw [hv]
    ring
  · exact volScenario_eval

/-- C2 witness: the split theorem applied to the builder mid-scenario
(volume 60, `ts_last` 1) with the second update `(1.1, 80)`. -/
theorem volume_bar_split_witness :
    sampleVolState.builder.tsLast ≤ 2 ∧ (100 : ℚ) ≤ sampleVolState.builder.volume + 80 ∧
    ((sampleVolState.builder.update (11/10) (100 - sampleVolState.builder.volume) 2).buildNow).1.volume
      = 100 := by
  have hts : sampleVolState.builder.tsLast ≤ 2 := by
    norm_num [sampleVolState, BarBuilder.new, BarBuilder.update]
  have hth : (100 : ℚ) ≤ sampleVolState.builder.volume + 80 := by
    norm_num [sampleVolState, BarBuilder.new, BarBuilder.update]
  exact ⟨hts, hth,
    (volume_bar_split.1 0 sampleVolState 100 (11/10) 80 2 hts hth (by norm_num)).2.1⟩

/-- C3: on an L1 book with both sides present, a SELL-aggressor trade
tick rewrites only the bid to the trade price/size and a BUY-aggressor
trade only the ask; if the touched side crosses the book (bid ≥ ask) the
untouched side's price is forced to the touched side's price, so the book
satisfies `bid ≤ ask` afterwards.  Concretely, from `bid=1.00/ask=1.01`
a BUY trade at `1.02` leaves `ask=1.02` and `bid=1.00`. -/
theorem l1_trade_tick_update (bk : L1Book) (price size : ℚ) (bid0 ask0 : BookOrder)
    (hb : bk.topBid = some bid0) (ha : bk.topAsk = some ask0) :
    ((bk.updateTradeTick .sell price size).topBid = some ⟨price, size⟩ ∧
     (ask0.price ≤ price → (bk.updateTradeTick .sell price size).topAsk = some ⟨price, ask0.size⟩) ∧
     (price < ask0.price → (bk.updateTradeTick .sell price size).topAsk = some ask0) ∧
     (∀ a, (bk.updateTradeTick .sell price size).topAsk = some a → price ≤ a.price)) ∧
    ((bk.updateTradeTick .buy price size).topAsk = some ⟨price, size⟩ ∧
     (price ≤ bid0.price → (bk.updateTradeTick .buy price size).topBid = some ⟨price, bid0.size⟩) ∧
     (bid0.price < price → (bk.updateTradeTick .buy price size).topBid = some bid0) ∧
     (∀ b, (bk.updateTradeTick .buy price size).topBid = some b → b.price ≤ price)) ∧
    ((sampleBook.updateTradeTick .buy (51/50) 1).topAsk = some ⟨51/50, 1⟩ ∧
     (sampleBook.updateTradeTick .buy (51/50) 1).topBid = some ⟨1, 1⟩) := by
  refine ⟨?_, ?_, ?_⟩
  · simp only [L1Book.updateTradeTick, L1Book.updateBid, ha]
    split_ifs with hcr
    · refine ⟨rfl, fun _ => rfl, fun hlt => absurd hlt (not_lt.mpr hcr), fun a haeq => ?_⟩
      cases haeq
      exact le_refl price
    · refine ⟨rfl, fun hge => absurd hge hcr, fun _ => rfl, fun a haeq => ?_⟩
      cases haeq
      exact le_of_lt (not_le.mp hcr)
  · simp only [L1Book.updateTradeTick, L1Book.updateAsk, hb]
    split_ifs with hcr
    · refine ⟨rfl, fun _ => rfl, fun hlt => absurd hcr (not_le.mpr hlt), fun b hbeq => ?_⟩
      cases hbeq
      exact le_refl price
    · refine ⟨rfl, fun hle => absurd hle hcr, fun _ => rfl, fun b hbeq => ?_⟩
      cases hbeq
      exact le_of_lt (not_le.mp hcr)
  · constructor <;>
      norm_num [sampleBook, L1Book.empty, L1Book.updateQuoteTick, L1Book.updateBid,
        L1Book.updateAsk, L1Book.updateTradeTick]

/-- C3 witness: the theorem applied to the quoted book
`bid=1.00/ask=1.01` with a SELL trade at `0.99`. -/
theorem l1_trade_tick_update_witness :
    sampleBook.topBid = some ⟨1, 1⟩ ∧ sampleBook.topAsk = some ⟨101/100, 1⟩ ∧
    (sampleBook.updateTradeTick .sell (99/100) 1).topBid = some ⟨99/100, 1⟩ := by
  have hb : sampleBook.topBid = some ⟨1, 1⟩ := by
    norm_num [sampleBook, L1Book.empty, L1Book.updateQuoteTick, L1Book.updateBid, L1Book.updateAsk]
  have ha : sampleBook.topAsk = some ⟨101/100, 1⟩ := by
    norm_num [sampleBook, L1Book.empty, L1Book.updateQuoteTick, L1Book.updateBid, L1Book.updateAsk]
  exact ⟨hb, ha, ((l1_trade_tick_update sampleBook (99/100) 1 ⟨1, 1⟩ ⟨101/100, 1⟩ hb ha).1).1⟩

/-- C4: a fill whose `execution_id` was already applied makes
`Position.apply` raise the duplicate-execution error before any state is
produced (in this functional embedding the position value is untouched),
and a successful apply extends a duplicate-free `execution_ids` list to a
duplicate-free list, so no execution id ever appears twice. -/
theorem position_duplicate_fill_rejected (p : Position) (fill : OrderFilled) :
    (fill.executionId ∈ p.executionIds → p.apply fill = .error "duplicate execution_id") ∧
    (p.executionIds.Nodup → ∀ q, p.apply fill = .ok q → q.executionIds.Nodup) := by
  constructor
  · intro h
    rw [Position.apply, if_pos h]
  · intro hnd q h
    by_cases hm : fill.executionId ∈ p.executionIds
    · rw [Position.apply, if_pos hm] at h
      exact absurd h (by simp)
    · obtain ⟨p3, rfl, hex, -, -, -, -⟩ := Position.applyFill_ok p fill q h
      rw [(Position.finalizeFill_spec p3 fill).2.1, hex]
      simp [List.nodup_append, hnd, hm]

/-- C4 witness: re-applying `E-1` to the live flip-scenario position is
rejected. -/
theorem position_duplicate_fill_rejected_witness :
    sampleDupFill.executionId ∈ samplePosition.executionIds ∧
    samplePosition.apply sampleDupFill = .error "duplicate execution_id" := by
  have hm : sampleDupFill.executionId ∈ samplePosition.executionIds := by
    simp [sampleDupFill, samplePosition, flipOpenState, flipFill2]
  exact ⟨hm, (position_duplicate_fill_rejected samplePosition sampleDupFill).1 hm⟩

/-- C5: after every successful fill application, the position's side is
LONG/SHORT/FLAT exactly as `net_qty` is positive/negative/zero, and on
return to FLAT `ts_closed` is the fill's `ts_event` and `duration_ns`
equals `ts_closed − ts_opened`. -/
theorem position_side_sign_invariant (p : Position) (fill : OrderFilled) (q : Position)
    (h : p.apply fill = .ok q) :
    ((q.side = .long ↔ 0 < q.netQty) ∧ (q.side = .short ↔ q.netQty < 0) ∧
     (q.side = .flat ↔ q.netQty = 0)) ∧
    (q.side = .flat → q.tsClosed = fill.tsEvent ∧ q.durationNs = q.tsClosed - q.tsOpened) := by
  obtain ⟨p3, rfl, -, -, -, -, -⟩ := Position.applyFill_ok p fill q h
  obtain ⟨hnet, -, -, -, hop2, hlong, hshort, hflat⟩ := Position.finalizeFill_spec p3 fill
  rcases lt_trichotomy p3.netQty 0 with hs | hs | hs
  · obtain ⟨hside, -⟩ := hshort hs
    refine ⟨⟨?_, ?_, ?_⟩, ?_⟩
    · rw [hside, hnet]
      exact iff_of_false (by simp) (by linarith)
    · rw [hside, hnet]
      exact iff_of_true rfl hs
    · rw [hside, hnet]
      exact iff_of_false (by simp) (ne_of_lt hs)
    · rw [hside]
      intro hc
      exact absurd hc (by simp)
  · obtain ⟨hside, hts, hdur⟩ := hflat hs
    refine ⟨⟨?_, ?_, ?_⟩, fun _ => ⟨hts, ?_⟩⟩
    · rw [hside, hnet]
      exact iff_of_false (by simp) (by simp [hs])
    · rw [hside, hnet]
      exact iff_of_false (by simp) (by simp [hs])
    · rw [hside, hnet]
      exact iff_of_true rfl hs
    · rw [hdur, hts, hop2]
  · obtain ⟨hside, -⟩ := hlong hs
    refine ⟨⟨?_, ?_, ?_⟩, ?_⟩
    · rw [hside, hnet]
      exact iff_of_true rfl hs
    · rw [hside, hnet]
      exact iff_of_false (by simp) (by linarith)
    · rw [hside, hnet]
      exact iff_of_false (by simp) (ne_of_gt hs)
    · rw [hside]
      intro hc
      exact absurd hc (by simp)

/-- C5 witness: the invariant at the concrete SHORT state reached by the
flip scenario. -/
theorem position_side_sign_invariant_witness :
    samplePosition.apply flipFill2 = .ok (flipFinalState 1) ∧
    ((flipFinalState 1).side = .short ↔ (flipFinalState 1).netQty < 0) := by
  have h : samplePosition.apply flipFill2 = .ok (flipFinalState 1) := flipScenario_close 1
  exact ⟨h, (position_side_sign_invariant samplePosition flipFill2 (flipFinalState 1) h).1.2.1⟩

/-- C6: under a test clock, an update whose `ts_event` lies beyond
`next_close_ns` first builds and emits the pending bar (closed at
`next_close_ns`) and then applies the update to the fresh builder; an
update exactly at `next_close_ns` is applied first and the bar then
built including it; an earlier update (with no pending
`build_on_next_tick` flag) is simply applied to the builder. -/
theorem time_bar_straddle (st : TimeAggState) (price size : ℚ) (ts : Int)
    (hclock : st.isTestClock = true) (hinit : st.builder.initialized = true)
    (htimer : st.timerNextNs = st.nextCloseNs) :
    (st.nextCloseNs < ts →
      timeApplyUpdate st price size ts =
        { st with
            builder := ((st.builder.build st.nextCloseNs).2).update price size ts,
            emitted := st.emitted ++ [(st.builder.build st.nextCloseNs).1],
            timerNextNs := st.nextCloseNs + st.intervalNs,
            nextCloseNs := st.nextCloseNs + st.intervalNs }) ∧
    (st.nextCloseNs = ts →
      timeApplyUpdate st price size ts =
        { st with
            builder := ((st.builder.update price size ts).build st.nextCloseNs).2,
            emitted := st.emitted ++ [((st.builder.update price size ts).build st.nextCloseNs).1],
            timerNextNs := st.nextCloseNs + st.intervalNs,
            nextCloseNs := st.nextCloseNs + st.intervalNs }) ∧
    (ts < st.nextCloseNs → st.buildOnNextTick = false →
      timeApplyUpdate st price size ts = { st with builder := st.builder.update price size ts }) := by
  refine ⟨fun hlt => ?_, fun heq => ?_, fun hlt hflag => ?_⟩
  · unfold timeApplyUpdate timeBuildBar timeBuildEvent
    dsimp only
    rw [if_pos hclock, if_pos hlt]
    simp only [htimer, hinit, Bool.not_true]
    rw [if_neg (by simp)]
  · unfold timeApplyUpdate timeBuildBar timeBuildEvent
    dsimp only
    rw [if_pos hclock, if_neg (by simp [heq]), if_pos heq]
    simp only [htimer, BarBuilder.update_initialized _ _ _ _ hinit, Bool.not_true]
    rw [if_neg (by simp)]
  · unfold timeApplyUpdate
    dsimp only
    rw [if_pos hclock, if_neg (by simp [not_lt.mpr (le_of_lt hlt)]),
      if_neg (ne_of_gt hlt)]
    rw [if_neg (by simp [hflag])]

/-- C6 witness: the straddle case `next_close_ns < ts_event` on a
concrete test-clock aggregator state (next close at 60, update at 61). -/
theorem time_bar_straddle_witness :
    sampleTimeState.isTestClock = true ∧ sampleTimeState.builder.initialized = true ∧
    sampleTimeState.nextCloseNs < 61 ∧
    timeApplyUpdate sampleTimeState 2 1 61 =
      { sampleTimeState with
          builder := ((sampleTimeState.builder.build sampleTimeState.nextCloseNs).2).update 2 1 61,
          emitted := sampleTimeState.emitted ++
            [(sampleTimeState.builder.build sampleTimeState.nextCloseNs).1],
          timerNextNs := sampleTimeState.nextCloseNs + sampleTimeState.intervalNs,
          nextCloseNs := sampleTimeState.nextCloseNs + sampleTimeState.intervalNs } := by
  have hinit : sampleTimeState.builder.initialized = true := by
    norm_num [sampleTimeState, BarBuilder.new, BarBuilder.update]
  refine ⟨rfl, hinit, by decide, ?_⟩
  exact (time_bar_straddle sampleTimeState 2 1 61 rfl hinit rfl).1 (by decide)

/-- C7: `BarBuilder.update` drops an out-of-order update
(`ts_event < ts_last`) and leaves the builder entirely unchanged. -/
theorem bar_builder_drops_stale_update (b : BarBuilder) (price size : ℚ) (ts : Int)
    (h : ts < b.tsLast) : b.update price size ts = b := by
  rw [BarBuilder.update, if_pos h]

/-- C7 witness: a stale update at `ts=3` against a builder whose
`ts_last` is `5`. -/
theorem bar_builder_drops_stale_update_witness :
    (3 : Int) < sampleBuilder.tsLast ∧ sampleBuilder.update 2 1 3 = sampleBuilder := by
  have h : (3 : Int) < sampleBuilder.tsLast := by
    norm_num [sampleBuilder, BarBuilder.new, BarBuilder.update]
  exact ⟨h, bar_builder_drops_stale_update sampleBuilder 2 1 3 h⟩

/-- C8: applying a fill subtracts its commission from `realized_pnl`
exactly when the commission currency is the position's cost currency (on
top of the closing-portion PnL of the fill), and always folds the
commission into the per-currency commissions map under its own currency,
leaving other currencies untouched. -/
theorem position_commission_handling (p : Position) (fill : OrderFilled) (q : Position)
    (h : p.apply fill = .ok q) :
    q.realizedPnl.amount =
      p.realizedPnl.amount + p.fillClosingPnl fill +
        (if fill.commission.currency = p.costCurrency then -fill.commission.amount else 0) ∧
    dictGet q.commissions fill.commission.currency =
      dictGet p.commissions fill.commission.currency + fill.commission.amount ∧
    (∀ c, c ≠ fill.commission.currency → dictGet q.commissions c = dictGet p.commissions c) := by
  obtain ⟨p3, rfl, -, hcom, -, hamt, -⟩ := Position.applyFill_ok p fill q h
  obtain ⟨-, -, hcom2, hpnl2, -, -, -, -⟩ := Position.finalizeFill_spec p3 fill
  refine ⟨?_, ?_, ?_⟩
  · rw [hpnl2, hamt, Position.fillCommissionPnl]
  · rw [hcom2, hcom, dictGet_dictSet_self]
  · intro c hc
    rw [hcom2, hcom, dictGet_dictSet_ne _ hc]

/-- C8 witness: closing the sample LONG position with a SELL fill
carrying a `2 USD` commission (`USD` is the cost currency). -/
theorem position_commission_handling_witness :
    samplePosition.apply sampleCloseFill = .ok sampleFlatPosition ∧
    sampleFlatPosition.realizedPnl.amount =
      samplePosition.realizedPnl.amount + samplePosition.fillClosingPnl sampleCloseFill +
        (if sampleCloseFill.commission.currency = samplePosition.costCurrency then
          -sampleCloseFill.commission.amount else 0) := by
  have h : samplePosition.apply sampleCloseFill = .ok sampleFlatPosition := by
    norm_num [samplePosition, sampleFlatPosition, sampleCloseFill, flipOpenState,
      Position.apply, Position.finalizeFill, Position.handleOrderFill,
      Position.handleSellOrderFill, Position.fillCommissionPnl,
      Position.calculateAvgPxClosePx, Position.calculatePoints, Position.calculateReturn,
      Position.calculatePnl, ratAbs, dictGet, dictSet, Except.toOption,
      show ("E-4" : String) ≠ "E-1" from by decide]
  exact ⟨h, (position_commission_handling samplePosition sampleCloseFill sampleFlatPosition h).1⟩

/-- C9: `OrderUpdated` applied to a stop-limit order rewrites the stop
trigger before any trigger event (`is_triggered` false), leaving the
limit price alone, and rewrites the limit price after a trigger
(`is_triggered` true), leaving the trigger alone; `OrderTriggered` sets
the flag. -/
theorem stop_limit_update_routing (o : StopLimitOrder) (e : OrderUpdated) :
    (o.isTriggered = false →
      (o.updated e).trigger = e.price ∧ (o.updated e).price = o.price) ∧
    (o.isTriggered = true →
      (o.updated e).price = e.price ∧ (o.updated e).trigger = o.trigger) ∧
    (o.triggered).isTriggered = true := by
  refine ⟨fun h => ?_, fun h => ?_, rfl⟩ <;>
    simp [StopLimitOrder.updated, h]

/-- C9 witness: the routing on the sample stop-limit order
(`price=100`, `trigger=105`), before and after triggering, with an
update carrying `price=106`. -/
theorem stop_limit_update_routing_witness :
    sampleStopLimit.isTriggered = false ∧
    (sampleStopLimit.updated sampleOrderUpdated).trigger = 106 ∧
    (sampleStopLimit.updated sampleOrderUpdated).price = 100 ∧
    ((sampleStopLimit.triggered).updated sampleOrderUpdated).price = 106 ∧
    ((sampleStopLimit.triggered).updated sampleOrderUpdated).trigger = 105 := by
  refine ⟨rfl, ?_, ?_, ?_, ?_⟩
  · exact ((stop_limit_update_routing sampleStopLimit sampleOrderUpdated).1 rfl).1
  · exact ((stop_limit_update_routing sampleStopLimit sampleOrderUpdated).1 rfl).2
  · exact ((stop_limit_update_routing sampleStopLimit.triggered sampleOrderUpdated).2.1 rfl).1
  · exact ((stop_limit_update_routing sampleStopLimit.triggered sampleOrderUpdated).2.1 rfl).2

/-- C10: a FLAT position's unrealized PnL is a zero `Money` in the quote
currency, for every last price and in particular also for inverse
instruments (whose non-FLAT unrealized PnL is denominated in the cost
currency, as the last conjunct shows for any non-flat position), and so
`total_pnl(last)` collapses to `realized_pnl` for a flat position. -/
theorem flat_unrealized_pnl (p p2 : Position) (last last2 : ℚ)
    (h : p.side = .flat) (h2 : p2.side ≠ .flat) :
    p.unrealizedPnl last = ⟨0, p.quoteCurrency⟩ ∧
    p.totalPnl last = ⟨p.realizedPnl.amount, p.costCurrency⟩ ∧
    (p.realizedPnl.currency = p.costCurrency → p.totalPnl last = p.realizedPnl) ∧
    (p2.unrealizedPnl last2).currency = p2.costCurrency := by
  have hu : p.unrealizedPnl last = ⟨0, p.quoteCurrency⟩ := by
    rw [Position.unrealizedPnl, if_pos h]
  refine ⟨hu, ?_, ?_, ?_⟩
  · rw [Position.totalPnl, hu]
    simp
  · intro hc
    rw [Position.totalPnl, hu]
    simp only [add_zero]
    rw [← hc]
  · rw [Position.unrealizedPnl, if_neg h2]

/-- C10 witness: the flat position produced by closing the sample LONG
position, with an inverse-instrument non-flat position covering the
last conjunct. -/
theorem flat_unrealized_pnl_witness :
    sampleFlatPosition.side = .flat ∧ samplePosition.side ≠ .flat ∧
    sampleFlatPosition.unrealizedPnl (23/2) = ⟨0, sampleFlatPosition.quoteCurrency⟩ ∧
    sampleFlatPosition.totalPnl (23/2) = sampleFlatPosition.realizedPnl ∧
    (samplePosition.unrealizedPnl 11).currency = samplePosition.costCurrency := by
  have hflat : sampleFlatPosition.side = .flat := by
    norm_num [samplePosition, sampleFlatPosition, sampleCloseFill, flipOpenState,
      Position.apply, Position.finalizeFill, Position.handleOrderFill,
      Position.handleSellOrderFill, Position.fillCommissionPnl,
      Position.calculateAvgPxClosePx, Position.calculatePoints, Position.calculateReturn,
      Position.calculatePnl, ratAbs, dictGet, dictSet, Except.toOption,
      show ("E-4" : String) ≠ "E-1" from by decide]
  have hnf : samplePosition.side ≠ .flat := by
    simp [samplePosition, flipOpenState]
  have hcur : sampleFlatPosition.realizedPnl.currency = sampleFlatPosition.costCurrency := by
    norm_num [samplePosition, sampleFlatPosition, sampleCloseFill, flipOpenState,
      Position.apply, Position.finalizeFill, Position.handleOrderFill,
      Position.handleSellOrderFill, Position.fillCommissionPnl,
      Position.calculateAvgPxClosePx, Position.calculatePoints, Position.calculateReturn,
      Position.calculatePnl, ratAbs, dictGet, dictSet, Except.toOption,
      show ("E-4" : String) ≠ "E-1" from by decide]
  obtain ⟨hu, -, hreal, hinv⟩ :=
    flat_unrealized_pnl sampleFlatPosition samplePosition (23/2) 11 hflat hnf
  exact ⟨hflat, hnf, hu, hreal hcur, hinv⟩
